import Mathlib

set_option autoImplicit false

namespace BluetoothRust

/-- Error kinds of the Rust standard library that this repository produces
(the subset of std::io::ErrorKind that appears in src/bluetooth-rust). -/
inductive ErrKind where
  | permissionDenied
  | invalidInput
  | notConnected
  | timedOut
  | other
  deriving DecidableEq, Repr

/-- Model of std::io::Error: an error kind together with its message payload.
Errors built with std::io::Error::from(kind) carry an empty message here. -/
structure IOError where
  kind : ErrKind
  msg : String
  deriving DecidableEq, Repr

/-- Model of std::io::Error::from(kind): kind only, empty message payload. -/
def IOError.fromKind (k : ErrKind) : IOError := ⟨k, ""⟩

/-- listStartsWith needle hay is true when hay begins with needle
(step function for the contiguous-substring test below). -/
def listStartsWith : List Char → List Char → Bool
  | [], _ => true
  | _ :: _, [] => false
  | a :: as, b :: bs => a == b && listStartsWith as bs

/-- listContainsSub needle hay is true when needle occurs contiguously in hay. -/
def listContainsSub (needle : List Char) : List Char → Bool
  | [] => listStartsWith needle []
  | c :: cs => listStartsWith needle (c :: cs) || listContainsSub needle cs

/-- Model of Rust str::contains with a string pattern: contiguous substring
test on the character sequences of the two strings. -/
def strContains (s pat : String) : Bool := listContainsSub pat.data s.data

/-- lowerChar maps an upper-case ASCII letter to its lower-case form and
leaves every other character unchanged (model of per-character lowercasing
as used on the exception messages matched against the ASCII word
"closed"). -/
def lowerChar (c : Char) : Char :=
  if 65 ≤ c.toNat ∧ c.toNat ≤ 90 then Char.ofNat (c.toNat + 32) else c

/-- Model of Rust str::to_lowercase: lowercase every character. -/
def strToLower (s : String) : String := ⟨s.data.map lowerChar⟩

/-- Model of a jni::errors::Error as observed by jerr: either a Java exception
(carrying the class name and message recovered from the cleared-exception
registry, when that recovery succeeds) or some other JNI-level failure
described by a string. -/
inductive JniErr where
  | javaException (info : Option (String × String))
  | nonException (desc : String)
  deriving DecidableEq, Repr

/-- Model of jerr in src/bluetooth-rust/src/android.rs lines 12-32: a caught
Java exception is classified by substring match on its class name
(SecurityException before IllegalArgumentException, in that order), any
other error becomes an Other error. When the class name or message cannot
be recovered the code falls back to Error::other of the original JNI error;
that fallback is rendered here with the fixed description "JavaException". -/
def jerr : JniErr → IOError
  | .javaException (some (cls, msg)) =>
      if strContains cls "SecurityException" then ⟨.permissionDenied, msg⟩
      else if strContains cls "IllegalArgumentException" then ⟨.invalidInput, msg⟩
      else ⟨.other, cls ++ ": " ++ msg⟩
  | .javaException none => ⟨.other, "JavaException"⟩
  | .nonException d => ⟨.other, d⟩

/-- C4: for every caught foreign exception whose class name and message were
recovered, the translator yields PermissionDenied when the class name
contains "SecurityException", InvalidInput when it contains
"IllegalArgumentException" (and not the former, which is tested first),
and otherwise an Other error carrying the string "<class>: <message>". -/
theorem jerr_classifies_by_class_name (cls msg : String) :
    (strContains cls "SecurityException" = true →
      jerr (.javaException (some (cls, msg))) = ⟨.permissionDenied, msg⟩)
    ∧ (strContains cls "SecurityException" = false →
        strContains cls "IllegalArgumentException" = true →
        jerr (.javaException (some (cls, msg))) = ⟨.invalidInput, msg⟩)
    ∧ (strContains cls "SecurityException" = false →
        strContains cls "IllegalArgumentException" = false →
        jerr (.javaException (some (cls, msg))) = ⟨.other, cls ++ ": " ++ msg⟩) := by
  refine ⟨fun h1 => ?_, fun h1 h2 => ?_, fun h1 h2 => ?_⟩ <;>
    simp [jerr, h1] <;> simp [h2]

/-- Witness for C4: the three branches evaluated at concrete exceptions. -/
theorem jerr_classifies_by_class_name_witness :
    jerr (.javaException (some ("java.lang.SecurityException", "denied"))) =
        ⟨.permissionDenied, "denied"⟩
    ∧ jerr (.javaException (some ("java.lang.IllegalArgumentException", "bad uuid"))) =
        ⟨.invalidInput, "bad uuid"⟩
    ∧ jerr (.javaException (some ("java.io.IOException", "read failed"))) =
        ⟨.other, "java.io.IOException: read failed"⟩ :=
  ⟨(jerr_classifies_by_class_name "java.lang.SecurityException" "denied").1 (by decide),
   (jerr_classifies_by_class_name "java.lang.IllegalArgumentException" "bad uuid").2.1
     (by decide) (by decide),
   (jerr_classifies_by_class_name "java.io.IOException" "read failed").2.2
     (by decide) (by decide)⟩

/-- Observations made by one iteration of the polling loop in
BluetoothSocket::read (src/bluetooth-rust/src/android/socket.rs lines
289-305): the bytes found in the shared queue when its lock is taken, the
result of the is_connected call, and whether SystemTime::duration_since
reported time remaining before the deadline. -/
structure ReadObs where
  queued : List Nat
  conn : Except IOError Bool
  timeLeft : Bool
  deriving Repr

namespace BluetoothSocket

/-- Polling loop of BluetoothSocket::read. Each iteration drains
min(queued, space) bytes, breaks when the buffer is full, then consults
is_connected (propagating its error), then either sleeps and retries while
time remains or breaks on an elapsed deadline. Returns none when the
observation trace ends before the loop does. An error result carries,
besides the propagated error, the number of bytes already drained from the
shared queue at the moment of propagation (the source discards this count;
the model keeps it because those bytes were consumed from the queue). -/
def readLoop (bufLen : Nat) : Nat → List ReadObs →
    Option (Except (IOError × Nat) (Bool × Nat))
  | cntRead, [] =>
    if cntRead < bufLen then none else some (.ok (false, cntRead))
  | cntRead, o :: rest =>
    if cntRead < bufLen then
      let cnt := cntRead + min o.queued.length (bufLen - cntRead)
      if bufLen ≤ cnt then some (.ok (false, cnt))
      else
        match o.conn with
        | .error e => some (.error (e, cnt))
        | .ok false => some (.ok (true, cnt))
        | .ok true =>
          if o.timeLeft then readLoop bufLen cnt rest
          else some (.ok (false, cnt))
    else some (.ok (false, cntRead))

/-- BluetoothSocket::read (socket.rs lines 280-314): an empty buffer returns
Ok 0 at once; otherwise the drain loop runs and its exit is mapped to the
final result: Ok count if at least one byte was copied, else TimedOut if no
disconnection was observed, else NotConnected. An error propagated from an
is_connected call is returned as is. -/
def read (bufLen : Nat) (obs : List ReadObs) : Option (Except IOError Nat) :=
  if bufLen = 0 then some (.ok 0)
  else
    (readLoop bufLen 0 obs).map fun r =>
      match r with
      | .error (e, _) => .error e
      | .ok (disc, cnt) =>
        if 0 < cnt then .ok cnt
        else if disc = false then .error (IOError.fromKind .timedOut)
        else .error (IOError.fromKind .notConnected)

/-- When every is_connected observation in the trace succeeds, the drain loop
never exits with a propagated error. -/
theorem readLoop_no_error_of_conn_ok (bufLen : Nat) (obs : List ReadObs)
    (hc : ∀ o ∈ obs, ∀ e : IOError, o.conn ≠ .error e) :
    ∀ cntRead p, readLoop bufLen cntRead obs ≠ some (.error p) := by
  induction obs with
  | nil =>
    intro c p
    simp only [readLoop]
    split <;> simp
  | cons o rest ih =>
    intro c p
    simp only [readLoop]
    split
    · split
      · simp
      · split
        · rename_i e heq
          exact absurd heq (hc o (by simp) e)
        · simp
        · split
          · exact ih (fun o' ho' => hc o' (by simp [ho'])) _ p
          · simp
    · simp

/-- C1 (amended): for every non-empty buffer, a read call during which every
is_connected check returns successfully and that has copied at least one byte
from the shared queue before its deadline elapses returns Ok with the number
of bytes copied and never returns an error, including when the socket is
observed disconnected after the partial copy. -/
theorem read_partial_copy_returns_ok (bufLen : Nat) (obs : List ReadObs)
    (r : Except (IOError × Nat) (Bool × Nat))
    (hb : 0 < bufLen)
    (hc : ∀ o ∈ obs, ∀ e : IOError, o.conn ≠ .error e)
    (hr : readLoop bufLen 0 obs = some r) :
    ∃ disc cnt, r = .ok (disc, cnt) ∧
      (0 < cnt → read bufLen obs = some (.ok cnt)) := by
  match r with
  | .error p => exact absurd hr (readLoop_no_error_of_conn_ok bufLen obs hc 0 p)
  | .ok (disc, cnt) =>
    refine ⟨disc, cnt, rfl, fun hcnt => ?_⟩
    simp [read, Nat.pos_iff_ne_zero.mp hb, hr, hcnt]

/-- Witness for C1 (amended): one byte queued fills a one-byte buffer; the
loop exits normally and the read returns Ok 1. -/
theorem read_partial_copy_returns_ok_witness :
    ∃ disc cnt,
      (Except.ok (false, 1) : Except (IOError × Nat) (Bool × Nat)) = .ok (disc, cnt) ∧
      (0 < cnt → read 1 [⟨[5], .ok true, true⟩] = some (.ok cnt)) :=
  read_partial_copy_returns_ok 1 [⟨[5], .ok true, true⟩] (.ok (false, 1))
    (by decide)
    (by intro o ho e h; simp at ho; rw [ho] at h; exact Except.noConfusion h)
    rfl

/-- Counterexample for C1 as stated: with a two-byte buffer and one queued
byte, the first iteration drains one byte from the shared queue and then the
is_connected call itself fails; read propagates that error instead of
returning Ok 1, so a read that copied a byte before its deadline elapsed
does return an error. -/
theorem read_partial_copy_error_cex :
    readLoop 2 0 [⟨[7], .error ⟨.other, "jni"⟩, true⟩]
        = some (.error (⟨.other, "jni"⟩, 1))
    ∧ read 2 [⟨[7], .error ⟨.other, "jni"⟩, true⟩]
        = some (.error ⟨.other, "jni"⟩) :=
  ⟨rfl, rfl⟩

/-- C3: a read call on a non-empty buffer whose drain loop exits normally
with zero bytes copied returns NotConnected exactly when disconnection was
observed during the call, and otherwise (socket still connected, deadline
elapsed with no data) returns TimedOut, an error distinct from
NotConnected. -/
theorem read_zero_copy_result (bufLen : Nat) (obs : List ReadObs) (disc : Bool)
    (hb : 0 < bufLen)
    (hr : readLoop bufLen 0 obs = some (.ok (disc, 0))) :
    read bufLen obs
        = some (.error (IOError.fromKind
            (cond disc ErrKind.notConnected ErrKind.timedOut)))
    ∧ IOError.fromKind ErrKind.timedOut ≠ IOError.fromKind ErrKind.notConnected := by
  refine ⟨?_, by simp [IOError.fromKind]⟩
  cases disc <;> simp [read, Nat.pos_iff_ne_zero.mp hb, hr]

/-- Witness for C3: an empty queue and a socket observed disconnected yields
NotConnected; the instantiated conclusion is evaluated at that trace. -/
theorem read_zero_copy_result_witness :
    read 1 [⟨[], .ok false, true⟩]
        = some (.error (IOError.fromKind
            (cond true ErrKind.notConnected ErrKind.timedOut)))
    ∧ IOError.fromKind ErrKind.timedOut ≠ IOError.fromKind ErrKind.notConnected :=
  read_zero_copy_result 1 [⟨[], .ok false, true⟩] true (by decide) rfl

end BluetoothSocket

/-- Outcomes of the foreign calls made by one BluetoothSocket::write call
(socket.rs lines 318-376). lenFail is a failure of get_array_length;
allocFail a failure of byte_array_from_slice on the growth path; setFail a
failure of set_byte_array_region on the reuse path; writeEx the outcome of
the foreign write primitive (none means it returned normally); connAfterEx
the result of the is_connected check made inside the exception handler. -/
structure WriteEnv where
  lenFail : Option IOError
  allocFail : Option IOError
  setFail : Option IOError
  writeEx : Option JniErr
  connAfterEx : Except IOError Bool

/-- Model of Result::unwrap_or applied to an is_connected result. -/
def exceptGetD (x : Except IOError Bool) (d : Bool) : Bool :=
  match x with
  | .ok b => b
  | .error _ => d

/-- Observable outcome of one write call: the returned result, the length of
the reusable Java scratch array afterwards, and how many times the foreign
write primitive was invoked during the call. -/
structure WriteOut where
  result : Except IOError Nat
  cap : Nat
  writeCalls : Nat

namespace BluetoothSocket

/-- BluetoothSocket::write (socket.rs lines 318-376), with cap the current
length of the reusable Java scratch array. An empty buffer returns Ok 0 with
no foreign call. Otherwise the array length is queried; a payload larger
than the capacity replaces the array by a fresh one holding exactly the
payload, a payload that fits is copied into the existing array; then the
foreign write primitive is invoked exactly once. When that call raises an
exception the handler returns NotConnected if is_connected().unwrap_or(false)
is false and the translated exception otherwise; on success the full buffer
length is returned. -/
def write (cap : Nat) (buf : List Nat) (env : WriteEnv) : WriteOut :=
  if buf.length = 0 then ⟨.ok 0, cap, 0⟩
  else
    match env.lenFail with
    | some e => ⟨.error e, cap, 0⟩
    | none =>
      let prepared : Except IOError Nat :=
        if cap < buf.length then
          match env.allocFail with
          | some e => .error e
          | none => .ok buf.length
        else
          match env.setFail with
          | some e => .error e
          | none => .ok cap
      match prepared with
      | .error e => ⟨.error e, cap, 0⟩
      | .ok newCap =>
        match env.writeEx with
        | none => ⟨.ok buf.length, newCap, 1⟩
        | some je =>
          if exceptGetD env.connAfterEx false = false then
            ⟨.error (IOError.fromKind .notConnected), newCap, 1⟩
          else ⟨.error (jerr je), newCap, 1⟩

/-- Final scratch-array capacity after a sequence of write calls. -/
def writeSeq (cap : Nat) : List (List Nat × WriteEnv) → Nat
  | [] => cap
  | op :: rest => writeSeq (write cap op.1 op.2).cap rest

/-- One write call never decreases the scratch-array capacity. -/
theorem write_cap_le (cap : Nat) (buf : List Nat) (env : WriteEnv) :
    cap ≤ (write cap buf env).cap := by
  simp only [write]
  split
  · exact Nat.le_refl cap
  · split
    · exact Nat.le_refl cap
    · split
      · exact Nat.le_refl cap
      · rename_i newCap hprep
        have hcap : cap ≤ newCap := by
          by_cases hcl : cap < buf.length
          · simp only [if_pos hcl] at hprep
            rcases ha : env.allocFail with _ | e
            · rw [ha] at hprep
              simp at hprep
              exact hprep ▸ Nat.le_of_lt hcl
            · rw [ha] at hprep
              simp at hprep
          · simp only [if_neg hcl] at hprep
            rcases hs : env.setFail with _ | e
            · rw [hs] at hprep
              simp at hprep
              exact Nat.le_of_eq hprep
            · rw [hs] at hprep
              simp at hprep
        split
        · exact hcap
        · split <;> exact hcap

/-- C2: for a non-empty buffer whose preparation steps succeed, the foreign
write primitive is invoked exactly once; when it raises an exception the
handler consults connectedness first, returning NotConnected when the socket
reports disconnected and the translated exception when it reports connected;
and no write call ever invokes the primitive more than once (no partial-write
retry loop). -/
theorem write_exception_handling (cap : Nat) (buf : List Nat) (env : WriteEnv)
    (hb : buf.length ≠ 0)
    (hlen : env.lenFail = none)
    (hgrow : cap < buf.length → env.allocFail = none)
    (hset : buf.length ≤ cap → env.setFail = none) :
    (write cap buf env).writeCalls = 1
    ∧ (∀ je, env.writeEx = some je →
        (env.connAfterEx = .ok false →
          (write cap buf env).result = .error (IOError.fromKind .notConnected))
        ∧ (env.connAfterEx = .ok true →
          (write cap buf env).result = .error (jerr je)))
    ∧ ∀ cap2 buf2 env2, (write cap2 buf2 env2).writeCalls ≤ 1 := by
  have hw : write cap buf env =
      (match env.writeEx with
        | none => ⟨.ok buf.length, if cap < buf.length then buf.length else cap, 1⟩
        | some je =>
          if exceptGetD env.connAfterEx false = false then
            ⟨.error (IOError.fromKind .notConnected),
              if cap < buf.length then buf.length else cap, 1⟩
          else ⟨.error (jerr je),
              if cap < buf.length then buf.length else cap, 1⟩) := by
    by_cases hcl : cap < buf.length
    · simp [write, hb, hlen, hcl, hgrow hcl]
    · simp [write, hb, hlen, hcl, hset (Nat.le_of_not_lt hcl)]
  refine ⟨?_, ?_, ?_⟩
  · rw [hw]
    rcases env.writeEx with _ | je
    · rfl
    · by_cases hcn : exceptGetD env.connAfterEx false = false <;> simp [hcn]
  · intro je hje
    rw [hw, hje]
    constructor <;> intro hcn <;> simp [hcn, exceptGetD]
  · intro cap2 buf2 env2
    simp only [write]
    split
    · exact Nat.zero_le 1
    · split
      · exact Nat.zero_le 1
      · split
        · exact Nat.zero_le 1
        · split
          · exact Nat.le_refl 1
          · split <;> exact Nat.le_refl 1

/-- Witness for C2: a two-byte write into a capacity-4 array whose foreign
write raises an IOException while the socket still reports connected. -/
theorem write_exception_handling_witness :
    (write 4 [1, 2] ⟨none, none, none,
        some (.javaException (some ("java.io.IOException", "broken pipe"))),
        .ok true⟩).writeCalls = 1
    ∧ (∀ je, (⟨none, none, none,
        some (.javaException (some ("java.io.IOException", "broken pipe"))),
        .ok true⟩ : WriteEnv).writeEx = some je →
        ((⟨none, none, none,
            some (.javaException (some ("java.io.IOException", "broken pipe"))),
            .ok true⟩ : WriteEnv).connAfterEx = .ok false →
          (write 4 [1, 2] ⟨none, none, none,
            some (.javaException (some ("java.io.IOException", "broken pipe"))),
            .ok true⟩).result = .error (IOError.fromKind .notConnected))
        ∧ ((⟨none, none, none,
            some (.javaException (some ("java.io.IOException", "broken pipe"))),
            .ok true⟩ : WriteEnv).connAfterEx = .ok true →
          (write 4 [1, 2] ⟨none, none, none,
            some (.javaException (some ("java.io.IOException", "broken pipe"))),
            .ok true⟩).result = .error (jerr je)))
    ∧ ∀ cap2 buf2 env2, (write cap2 buf2 env2).writeCalls ≤ 1 :=
  write_exception_handling 4 [1, 2]
    ⟨none, none, none,
      some (.javaException (some ("java.io.IOException", "broken pipe"))),
      .ok true⟩
    (by decide) rfl (fun h => absurd h (by decide)) (fun _ => rfl)

/-- C5: across every sequence of write calls the scratch-array capacity never
decreases; a write whose payload exceeds the current capacity and whose
growth allocation succeeds replaces the array by one of exactly the payload's
length (hence at least that length), and a write whose payload fits the
current capacity leaves the capacity unchanged. -/
theorem write_capacity_monotone (cap : Nat) (ops : List (List Nat × WriteEnv)) :
    cap ≤ writeSeq cap ops
    ∧ (∀ buf env, env.lenFail = none → env.allocFail = none →
        cap < buf.length → (write cap buf env).cap = buf.length)
    ∧ (∀ buf env, buf.length ≤ cap → (write cap buf env).cap = cap) := by
  refine ⟨?_, ?_, ?_⟩
  · induction ops generalizing cap with
    | nil => exact Nat.le_refl cap
    | cons op rest ih =>
      exact Nat.le_trans (write_cap_le cap op.1 op.2)
        (ih (write cap op.1 op.2).cap)
  · intro buf env hlen ha hcl
    have hb : ¬buf.length = 0 :=
      Nat.pos_iff_ne_zero.mp (Nat.lt_of_le_of_lt (Nat.zero_le cap) hcl)
    rcases hwx : env.writeEx with _ | je
    · simp [write, hb, hlen, ha, hcl, hwx]
    · by_cases hcn : exceptGetD env.connAfterEx false = false <;>
        simp [write, hb, hlen, ha, hcl, hwx, hcn]
  · intro buf env hfit
    by_cases hb : buf.length = 0
    · simp [write, hb]
    · have hcl : ¬cap < buf.length := Nat.not_lt.mpr hfit
      rcases hlf : env.lenFail with _ | e
      · rcases hsf : env.setFail with _ | e2
        · rcases hwx : env.writeEx with _ | je
          · simp [write, hb, hcl, hlf, hsf, hwx]
          · by_cases hcn : exceptGetD env.connAfterEx false = false <;>
              simp [write, hb, hcl, hlf, hsf, hwx, hcn]
        · simp [write, hb, hcl, hlf, hsf]
      · simp [write, hb, hlf]

/-- Witness for C5: starting from capacity 2, a three-byte write grows the
capacity to 3 and a following one-byte write keeps it at 3. -/
theorem write_capacity_monotone_witness :
    2 ≤ writeSeq 2 [([9, 9, 9], ⟨none, none, none, none, .ok true⟩),
        ([1], ⟨none, none, none, none, .ok true⟩)]
    ∧ (write 2 [9, 9, 9] ⟨none, none, none, none, .ok true⟩).cap = 3
    ∧ (write 3 [1] ⟨none, none, none, none, .ok true⟩).cap = 3 :=
  ⟨(write_capacity_monotone 2 [([9, 9, 9], ⟨none, none, none, none, .ok true⟩),
      ([1], ⟨none, none, none, none, .ok true⟩)]).1,
   (write_capacity_monotone 2 []).2.1 [9, 9, 9]
     ⟨none, none, none, none, .ok true⟩ rfl rfl (by decide),
   (write_capacity_monotone 3 []).2.2 [1]
     ⟨none, none, none, none, .ok true⟩ (by decide)⟩

/-- C9: a write call on a non-empty buffer that returns Ok returns exactly
the full length of the input buffer: write never reports a partial write. -/
theorem write_ok_full_length (cap : Nat) (buf : List Nat) (env : WriteEnv)
    (n : Nat)
    (hb : buf.length ≠ 0)
    (hr : (write cap buf env).result = .ok n) :
    n = buf.length := by
  simp only [write, if_neg hb] at hr
  split at hr
  · exact absurd hr (by simp)
  · split at hr
    · exact absurd hr (by simp)
    · split at hr
      · exact (Except.ok.inj hr).symm
      · split at hr <;> exact absurd hr (by simp)

/-- Witness for C9: a two-byte write that succeeds returns exactly 2. -/
theorem write_ok_full_length_witness :
    (write 8 [1, 2] ⟨none, none, none, none, .ok true⟩).result = .ok 2
    ∧ (2 : Nat) = [1, 2].length :=
  ⟨rfl, write_ok_full_length 8 [1, 2] ⟨none, none, none, none, .ok true⟩ 2
    (by decide) rfl⟩

end BluetoothSocket

/-- Outcomes of the foreign calls made by one iteration of
BluetoothSocket::read_loop (socket.rs lines 179-242). readLen is the result
of the foreign blocking read (none when it raised an exception or otherwise
failed), data the contents of the Java staging array after that read,
regionFail a failure of get_byte_array_region, clearedMsg the message of the
last cleared exception when one was recorded, connQuery the result of the
isConnected call made in the exception branch. -/
structure IterEnv where
  readLen : Option Int
  data : List Nat
  regionFail : Option IOError
  clearedMsg : Option String
  connQuery : Except IOError Bool

/-- How the background read loop proceeds after one iteration: keep looping,
terminate the thread normally, or terminate it with an error. -/
inductive LoopNext where
  | cont
  | stop
  | fail (e : IOError)
  deriving DecidableEq, Repr

/-- Observable effects of one iteration of BluetoothSocket::read_loop: the
bytes appended to the shared queue, the argument the completion callback was
invoked with (none when it was not invoked), whether a best-effort close of
the foreign socket was attempted, and how the loop proceeds. -/
structure IterOut where
  queueAppend : List Nat
  callbackArg : Option (Option Nat)
  closeAttempted : Bool
  next : LoopNext

namespace BluetoothSocket

/-- One iteration of BluetoothSocket::read_loop (socket.rs lines 179-242).
On a successful read of positive length the bytes are copied out of the Java
array, appended to the shared queue, and the callback is invoked with
Some length; a non-positive length retries immediately. On a read exception
the message of the cleared exception is checked case-insensitively for the
substring "closed": if present, a best-effort close of the foreign socket is
attempted, the callback is invoked with None, and the thread ends; if
absent, the socket's connectedness is queried (an error there ends the
thread with that error), a disconnected socket invokes the callback with
None and ends the thread, and a connected one is treated as a transient
error and the loop continues. -/
def readLoopIter (env : IterEnv) : IterOut :=
  match env.readLen with
  | some len =>
    if 0 < len then
      match env.regionFail with
      | some e => ⟨[], none, false, .fail e⟩
      | none => ⟨env.data.take len.toNat, some (some len.toNat), false, .cont⟩
    else ⟨[], none, false, .cont⟩
  | none =>
    if (match env.clearedMsg with
        | some m => strContains (strToLower m) "closed"
        | none => false) then
      ⟨[], some none, true, .stop⟩
    else
      match env.connQuery with
      | .error e => ⟨[], none, false, .fail e⟩
      | .ok false => ⟨[], some none, false, .stop⟩
      | .ok true => ⟨[], none, false, .cont⟩

/-- C6: in every iteration of the background read loop where the foreign
read raised an exception whose cleared message is available: a message
containing "closed" (case-insensitively) attempts a best-effort close of the
foreign socket, invokes the callback with None and terminates the thread;
otherwise the socket's connectedness is queried, a disconnected result
invokes the callback with None and terminates, and a connected result
continues looping. -/
theorem read_loop_exception_branch (env : IterEnv) (msg : String)
    (hex : env.readLen = none)
    (hmsg : env.clearedMsg = some msg) :
    (strContains (strToLower msg) "closed" = true →
      readLoopIter env = ⟨[], some none, true, .stop⟩)
    ∧ (strContains (strToLower msg) "closed" = false →
        (env.connQuery = .ok false →
          readLoopIter env = ⟨[], some none, false, .stop⟩)
        ∧ (env.connQuery = .ok true →
          readLoopIter env = ⟨[], none, false, .cont⟩)) := by
  refine ⟨fun h => ?_, fun h => ⟨fun hc => ?_, fun hc => ?_⟩⟩
  · simp [readLoopIter, hex, hmsg, h]
  · simp [readLoopIter, hex, hmsg, h, hc]
  · simp [readLoopIter, hex, hmsg, h, hc]

/-- Witness for C6: a cleared-exception message "Socket Closed" triggers the
close-and-terminate branch at a concrete environment, through the
case-insensitive substring test. -/
theorem read_loop_exception_branch_witness :
    strContains (strToLower "Socket Closed") "closed" = true
    ∧ readLoopIter ⟨none, [], none, some "Socket Closed", .ok true⟩
        = ⟨[], some none, true, .stop⟩ :=
  ⟨by decide,
   (read_loop_exception_branch ⟨none, [], none, some "Socket Closed", .ok true⟩
      "Socket Closed" rfl rfl).1 (by decide)⟩

/-- Model of BluetoothSocket::read_callback (socket.rs lines 246-256) acting
on the single callback slot. Callbacks are identified by values of an
arbitrary type. slot is the slot content on entry; setDuring is what the
invoked callback leaves in the slot during its invocation (the slot is empty
right after the take, so none means the callback registered nothing new).
Returns the slot content after the call and whether a callback was invoked. -/
def readCallbackSlot {α : Type} (slot : Option α) (setDuring : Option α) :
    Option α × Bool :=
  match slot with
  | none => (none, false)
  | some cb =>
    match setDuring with
    | none => (some cb, true)
    | some newCb => (some newCb, true)

/-- Counterexample for C8 as stated: with callback 0 registered and the
invocation installing callback 1, the slot afterwards holds the newly set
callback 1, not the taken-out callback 0 — so it is the old callback, not
the newly set one, that is silently dropped. -/
theorem read_callback_keeps_new_cex :
    readCallbackSlot (some 0) (some 1) = (some 1, true)
    ∧ (some 1 : Option Nat) ≠ some 0 :=
  ⟨rfl, by decide⟩

/-- C8 (amended): when the registered read-completion callback sets a new
callback during its own invocation, the replace-only-if-empty restore logic
silently drops the callback taken out before the invocation: the slot keeps
the newly set callback, and the taken-out callback is restored only when the
slot is still empty after the invocation. -/
theorem read_callback_replace_only_if_empty {α : Type} (cb : α)
    (setDuring : Option α) :
    (setDuring = none → readCallbackSlot (some cb) setDuring = (some cb, true))
    ∧ (∀ newCb, setDuring = some newCb →
        readCallbackSlot (some cb) setDuring = (some newCb, true)) := by
  constructor
  · intro h
    subst h
    rfl
  · intro newCb h
    subst h
    rfl

/-- Witness for C8 (amended): both branches evaluated at concrete slots. -/
theorem read_callback_replace_only_if_empty_witness :
    readCallbackSlot (some 3) (none : Option Nat) = (some 3, true)
    ∧ readCallbackSlot (some 3) (some 4) = (some 4, true) :=
  ⟨(read_callback_replace_only_if_empty 3 (none : Option Nat)).1 rfl,
   (read_callback_replace_only_if_empty 3 (some 4)).2 4 rfl⟩

end BluetoothSocket

/-- State of one BluetoothSocket relevant to close: whether the foreign
socket reports connected, and whether the background-thread join handle is
present in its slot. -/
structure SockState where
  connected : Bool
  thread : Option Unit
  deriving DecidableEq, Repr

/-- Outcomes of the foreign calls made by one close call (socket.rs lines
260-276): connQueryFail is a failure of the initial is_connected query (none
means the query reports the state's connectedness), flushResult the result
of the best-effort flush (discarded by the source), closeFail a failure of
the foreign close primitive. -/
structure CloseEnv where
  connQueryFail : Option IOError
  flushResult : Except IOError Unit
  closeFail : Option IOError

namespace BluetoothSocket

/-- BluetoothSocket::close (socket.rs lines 260-276): when the socket
already reports disconnected the call is a no-op returning Ok; otherwise
flush is attempted with its result discarded, the foreign close primitive is
invoked (a failure there is returned and nothing more happens), the join
handle is taken out and joined, and after a successful close the foreign
socket reports disconnected. -/
def close (st : SockState) (env : CloseEnv) :
    Except IOError Unit × SockState :=
  match env.connQueryFail with
  | some e => (.error e, st)
  | none =>
    if st.connected = false then (.ok (), st)
    else
      match env.closeFail with
      | some e => (.error e, st)
      | none => (.ok (), ⟨false, none⟩)

/-- C7: close is a no-op returning Ok on an already disconnected socket, and
on a connected socket whose foreign calls succeed a first close returns Ok
and leaves the socket disconnected with the join handle taken (the
background thread joined), so a second close returns Ok with no thread left
to join and the state untouched. -/
theorem close_idempotent (st : SockState) (env1 env2 : CloseEnv)
    (h1 : env1.connQueryFail = none)
    (hclose : env1.closeFail = none)
    (h2 : env2.connQueryFail = none) :
    (st.connected = false → close st env1 = (.ok (), st))
    ∧ (st.connected = true →
        close st env1 = (.ok (), ⟨false, none⟩)
        ∧ close ⟨false, none⟩ env2 = (.ok (), ⟨false, none⟩)) := by
  constructor
  · intro hc
    simp [close, h1, hc]
  · intro hc
    constructor <;> simp [close, h1, h2, hclose, hc]

/-- Witness for C7: a connected socket with a live join handle is closed
twice with all foreign calls succeeding. -/
theorem close_idempotent_witness :
    ((⟨true, some ()⟩ : SockState).connected = false →
      close ⟨true, some ()⟩ ⟨none, .ok (), none⟩ = (.ok (), ⟨true, some ()⟩))
    ∧ ((⟨true, some ()⟩ : SockState).connected = true →
        close ⟨true, some ()⟩ ⟨none, .ok (), none⟩ = (.ok (), ⟨false, none⟩)
        ∧ close ⟨false, none⟩ ⟨none, .ok (), none⟩ = (.ok (), ⟨false, none⟩)) :=
  close_idempotent ⟨true, some ()⟩ ⟨none, .ok (), none⟩ ⟨none, .ok (), none⟩
    rfl rfl rfl

end BluetoothSocket

/-- Outcomes of the foreign calls made by one connect call (socket.rs lines
118-146): already is the initial is_connected query, connectEx the outcome
of the foreign blocking connect primitive (none means it returned normally),
recheck the is_connected query made right after it. -/
structure ConnectEnv where
  already : Except IOError Bool
  connectEx : Option JniErr
  recheck : Except IOError Bool

namespace BluetoothSocket

/-- BluetoothSocket::connect (socket.rs lines 118-146): a socket that
already reports connected is left alone; otherwise the foreign connect
primitive runs (an exception is translated and returned), connectedness is
re-checked, and only a re-check reporting true spawns the background reader
thread into the join-handle slot; a re-check reporting false returns
NotConnected. -/
def connect (threadRead : Option Unit) (env : ConnectEnv) :
    Except IOError Unit × Option Unit :=
  match env.already with
  | .error e => (.error e, threadRead)
  | .ok true => (.ok (), threadRead)
  | .ok false =>
    match env.connectEx with
    | some je => (.error (jerr je), threadRead)
    | none =>
      match env.recheck with
      | .error e => (.error e, threadRead)
      | .ok true => (.ok (), some ())
      | .ok false => (.error (IOError.fromKind .notConnected), threadRead)

/-- C10: when the socket does not already report connected, the foreign
connect primitive returns without raising an exception, and the
connectedness re-check reports false, connect returns a NotConnected error
and leaves the join-handle slot unchanged (in particular an unset slot
remains unset, so no background reader thread is spawned). -/
theorem connect_recheck_not_connected (threadRead : Option Unit)
    (env : ConnectEnv)
    (h0 : env.already = .ok false)
    (h1 : env.connectEx = none)
    (h2 : env.recheck = .ok false) :
    connect threadRead env
      = (.error (IOError.fromKind .notConnected), threadRead) := by
  simp [connect, h0, h1, h2]

/-- Witness for C10: the silently failing connect evaluated with an unset
join-handle slot. -/
theorem connect_recheck_not_connected_witness :
    connect none ⟨.ok false, none, .ok false⟩
      = (.error (IOError.fromKind .notConnected), none) :=
  connect_recheck_not_connected none ⟨.ok false, none, .ok false⟩ rfl rfl rfl

end BluetoothSocket

end BluetoothRust
